import Mathlib

/-!
Verification development for the `aioxiaomi` library (shallow embedding).

The definitions below are translated from `aioxiaomi/aioxiaomi.py` and
`aioxiaomi/discover.py`.  Conventions used throughout:

* Python callables (command callbacks) are represented by opaque token
  numbers (`Nat`); an "invocation" is recorded as an event carrying the
  token and the payload the source passes to the callable.
* Python dictionaries are represented as association lists with
  insert-overwrite semantics (`dictInsert` / `dictErase`).
* A Python function that can raise is embedded as `Except Unit _`;
  `Except.error ()` marks an uncaught exception (KeyError, ValueError,
  UnicodeDecodeError, AttributeError, IndexError / ZeroDivisionError).
* Machine integers do not occur; the sequence counter is a `Nat` reduced
  `% 256` exactly as the source does (`MESSAGE_WINDOW = 256`).
* Wall-clock values (`last_sent`, rate-limit sleeps, `dodelay` pacing)
  only feed `asyncio.sleep` calls in the source and have no effect on any
  observable state; they are elided.  I/O transports are represented by
  their identity (a `Nat` connection id), since the source only ever
  compares `.id` fields and calls `.write` on them.
-/

/-- A JSON-ish scalar appearing in command parameters and device
properties (the source mixes ints and strings freely). -/
inductive PVal
  | pint (i : Int)
  | pstr (s : String)
deriving DecidableEq, Repr

/-- An outbound command message: `\x7b"method": .., "params": .., "id": ..\x7d`
as built by `send_msg` (which assigns the `id`). -/
structure Msg where
  method : String
  params : List PVal
  id : Nat
deriving DecidableEq, Repr

/-- Python `dict` insertion (`d[k] = v`): overwrite in place if the key is
present, else append. -/
def dictInsert {κ ν : Type} [DecidableEq κ] (k : κ) (v : ν)
    (d : List (κ × ν)) : List (κ × ν) :=
  if d.any (fun p => p.1 == k) then
    d.map (fun p => if p.1 = k then (k, v) else p)
  else d ++ [(k, v)]

/-- Python `del d[k]`. -/
def dictErase {κ ν : Type} [DecidableEq κ] (k : κ)
    (d : List (κ × ν)) : List (κ × ν) :=
  d.filter (fun p => p.1 != k)

/-- Python's `sub in s` on strings: substring containment.  (In the source
`self.support` is the raw `support` discovery header, a string, so every
capability check is a substring test.) -/
def listIsInfixOf (sub : List Char) : List Char → Bool
  | [] => sub.isEmpty
  | a :: t => sub.isPrefixOf (a :: t) || listIsInfixOf sub t

/-- `pyIn sub s` is Python's `sub in s` for strings. -/
def pyIn (sub s : String) : Bool :=
  listIsInfixOf sub.toList s.toList

/-- `PROPERTIES` from the source: the allow-list of recognised device
attribute names. -/
def PROPERTIES : List String :=
  ["power", "bg_power", "bright", "bg_bright", "nl_br", "ct", "bg_ct",
   "rgb", "bg_rgb", "hue", "bg_hue", "sat", "bg_sat", "color_mode",
   "bg_lmode", "flowing", "bg_flowing", "flow_params", "bg_flow_params",
   "music_on", "name", "delayoff", "fw_ver", "model", "id"]

/-- A pending-reply table entry `[event, callb]`: whether an
`asyncio.Event` is attached (`send_msg_noqueue` stores `None` there), and
the optional callback token. -/
abbrev PendEntry := Bool × Option Nat

/-- The mutable state of `XiaomiBulb` (the Device Session).  Transports
are connection ids; `musicm` is `true` when a direct-stream (music mode)
connection is active and `false` otherwise (the transient
`asyncio.Future` value the source stores while the reverse connection is
being awaited is real concurrency and is outside this embedding). -/
structure XiaomiBulb where
  support : String
  properties : List (String × PVal)
  seq : Nat
  pending_reply : List (Nat × PendEntry)
  tnb : Nat
  transports : List Nat
  tidx : Nat
  musicm : Bool
  registered : Bool
  message_queue : List (Option Nat × Msg)
  queue_limit : Nat
  queue_policy : String
  is_sending : Bool
  default_cb : Nat
deriving DecidableEq, Repr

/-- `XiaomiBulb.__init__`: `tnb = max(1, min(4, tnb))`, empty transports
and queue, `queue_limit = 0`, policy `"drop"`.  (The header-driven
population of `properties` with int/hex coercions is glue outside the
claims; the already-typed attribute map is taken as an argument.) -/
def xiaomiInit (support : String) (props : List (String × PVal))
    (tnb : Nat) : XiaomiBulb :=
  { support := support
    properties := props
    seq := 0
    pending_reply := []
    tnb := max 1 (min 4 tnb)
    transports := []
    tidx := 0
    musicm := false
    registered := false
    message_queue := []
    queue_limit := 0
    queue_policy := "drop"
    is_sending := false
    default_cb := 0 }

/-- `XiaomiBulb.seq_next`: bump the sequence counter modulo 256 and
return it. -/
def seq_next (st : XiaomiBulb) : Nat × XiaomiBulb :=
  let s := (st.seq + 1) % 256
  (s, { st with seq := s })

/-- `XiaomiBulb.register` (called from `XiaomiConnect.connection_made`):
append the connection and mark the session registered.  (Recording
`my_ip_addr` and notifying the parent registry are elided glue.) -/
def register (st : XiaomiBulb) (conn : Nat) : XiaomiBulb :=
  let st1 := { st with transports := st.transports ++ [conn] }
  if st1.registered then st1 else { st1 with registered := true }

/-- `XiaomiBulb.unregister`: delete the first transport whose id matches,
and if the list became empty while registered, mark unregistered. -/
def unregister (st : XiaomiBulb) (conn : Nat) : XiaomiBulb :=
  let ts := st.transports.erase conn
  let st1 := { st with transports := ts }
  if ts.length = 0 ∧ st1.registered then { st1 with registered := false }
  else st1

/-- `XiaomiBulb.activate`: open `tnb` outbound connections; each one, once
established, registers itself (`XiaomiConnect.connection_made` →
`register`).  The embedding collapses the asynchronous connects into the
state reached after all `tnb` of them have succeeded and registered,
numbering the fresh connections by current list length. -/
def activate (st : XiaomiBulb) : XiaomiBulb :=
  (List.range st.tnb).foldl (fun s _ => register s s.transports.length) st

/-- `XiaomiBulb.set_connections`: stores the requested count verbatim —
unlike `__init__`, no clamping to the 1..4 range happens here. -/
def set_connections (st : XiaomiBulb) (nb : Nat) : XiaomiBulb :=
  { st with tnb := nb }

/-- `XiaomiBulb.set_queue_limit`. -/
def set_queue_limit (st : XiaomiBulb) (length : Nat) (policy : String) :
    XiaomiBulb :=
  { st with queue_limit := length, queue_policy := policy }

/-- `Queue.trim(length)`: `self.queue = self.queue[0-length:]`.  For
`length ≥ 1` the Python slice `[-length:]` keeps the last
`min(length, len)` entries; for `length = 0` the slice is `[0:]`, the
whole list. -/
def trim {α : Type} (q : List α) (length : Nat) : List α :=
  if length = 0 then q else q.drop (q.length - length)

/-- The effect of the `"adapt"` overflow policy calling
`set_music("start", 5)`: when `set_music` is supported and no direct
stream is pending/active, the mode is switched on.  (The local server
socket setup and the deferred `send_msg_noqueue` control message are
socket I/O elided from the embedding; no claim exercises them.) -/
def set_music_start (st : XiaomiBulb) : XiaomiBulb :=
  if pyIn "set_music" st.support ∧ st.musicm = false then
    { st with musicm := true }
  else st

/-- `XiaomiBulb.send_msg`.  `rnd` is the value drawn by
`randint(0, len(queue) - 1)` in the `"random"` branch (the source draws
it after the new entry is appended, so the range includes the new entry).
`Queue.retrieve` removes the indexed entry when the index is in range and
is a no-op otherwise, which is `List.eraseIdx`. -/
def send_msg (st : XiaomiBulb) (method : String) (params : List PVal)
    (callb : Option Nat) (rnd : Nat) : XiaomiBulb :=
  if st.queue_limit = 0 ∨ st.message_queue.length < st.queue_limit then
    let (cid, st1) := seq_next st
    let st2 := { st1 with
      message_queue := st1.message_queue ++ [(callb, ⟨method, params, cid⟩)] }
    if st2.is_sending then st2 else { st2 with is_sending := true }
  else
    if st.queue_policy ≠ "drop" then
      let (cid, st1) := seq_next st
      let st2 := { st1 with
        message_queue := st1.message_queue ++ [(callb, ⟨method, params, cid⟩)] }
      if st2.queue_policy = "head" then
        { st2 with message_queue := st2.message_queue.drop 1 }
      else if st2.queue_policy = "adapt" then
        set_music_start st2
      else
        { st2 with message_queue := st2.message_queue.eraseIdx rnd }
    else st

/-- The state produced by `send_msg` on the unbounded-queue fast path:
sequence bumped, entry appended, drain marked running. -/
def enqueued (st : XiaomiBulb) (method : String) (params : List PVal)
    (callb : Option Nat) : XiaomiBulb :=
  { st with
    seq := (st.seq + 1) % 256
    message_queue :=
      st.message_queue ++ [(callb, ⟨method, params, (st.seq + 1) % 256⟩)]
    is_sending := true }

/-- Python `d[k]` on the attribute dictionary: raises `KeyError` when the
key is absent. -/
def pyGetItem (d : List (String × PVal)) (k : String) : Except Unit PVal :=
  match d.lookup k with
  | some v => Except.ok v
  | none => Except.error ()

/-- Python `lst.index(x)` on a list of strings: `ValueError` when
absent. -/
def pyIndex (l : List String) (x : String) : Except Unit Nat :=
  match l.findIdx? (fun s => s == x) with
  | some i => Except.ok i
  | none => Except.error ()

/-- `",".join(map(str, flex))` for the flow-expression parameter. -/
def joinComma (flex : List Int) : String :=
  ",".intercalate (flex.map toString)

/-- Python truthiness of the optional `mode` argument of `set_power`
(`if mode:`): `None` and `Mode.Default = 0` are both falsy. -/
def modeTruthy : Option Nat → Bool
  | some m => m != 0
  | none => false

/-- `XiaomiBulb.set_power`: gated only on `"set_power" in support`; the
four-element parameter list is used only when `mode` is truthy. -/
def set_power (rnd : Nat) (st : XiaomiBulb) (power effect : String)
    (duration : Int) (mode : Option Nat) (callb : Option Nat) :
    Except Unit (Bool × XiaomiBulb) :=
  if pyIn "set_power" st.support then
    let d := if effect = "smooth" then max 30 duration else duration
    if modeTruthy mode then
      Except.ok (true, send_msg st "set_power"
        [PVal.pstr power, PVal.pstr effect, PVal.pint d,
         PVal.pint (Int.ofNat (mode.getD 0))] callb rnd)
    else
      Except.ok (true, send_msg st "set_power"
        [PVal.pstr power, PVal.pstr effect, PVal.pint d] callb rnd)
  else Except.ok (false, st)

/-- `XiaomiBulb.set_brightness`.  In the source the `send_msg` call is
indented under `if effect == "smooth":`, so with any other effect the
method returns `True` without queueing anything. -/
def set_brightness (rnd : Nat) (st : XiaomiBulb) (brightness : Int)
    (effect : String) (duration : Int) (callb : Option Nat) :
    Except Unit (Bool × XiaomiBulb) :=
  match st.properties.lookup "power" with
  | none => Except.error ()
  | some p =>
    if p = PVal.pstr "on" ∧ pyIn "set_bright" st.support then
      if effect = "smooth" then
        Except.ok (true, send_msg st "set_bright"
          [PVal.pint brightness, PVal.pstr effect, PVal.pint (max 30 duration)]
          callb rnd)
      else Except.ok (true, st)
    else Except.ok (false, st)

/-- `XiaomiBulb.set_temperature`: requires `properties["power"] == "on"`
(a `KeyError` if the attribute was never populated) and
`"set_ct_abx" in support`. -/
def set_temperature (rnd : Nat) (st : XiaomiBulb) (temp : Int)
    (effect : String) (duration : Int) (callb : Option Nat) :
    Except Unit (Bool × XiaomiBulb) :=
  match st.properties.lookup "power" with
  | none => Except.error ()
  | some p =>
    if p = PVal.pstr "on" ∧ pyIn "set_ct_abx" st.support then
      Except.ok (true, send_msg st "set_ct_abx"
        [PVal.pint temp, PVal.pstr effect,
         PVal.pint (if effect = "smooth" then max 30 duration else duration)]
        callb rnd)
    else Except.ok (false, st)

/-- `XiaomiBulb.set_rgb`: note the stray `cid = self.seq_next()` before
`send_msg`, which bumps the sequence counter a second time. -/
def set_rgb (rnd : Nat) (st : XiaomiBulb) (rgb : Int) (effect : String)
    (duration : Int) (callb : Option Nat) : Except Unit (Bool × XiaomiBulb) :=
  match st.properties.lookup "power" with
  | none => Except.error ()
  | some p =>
    if p = PVal.pstr "on" ∧ pyIn "set_rgb" st.support then
      let st1 := (seq_next st).2
      Except.ok (true, send_msg st1 "set_rgb"
        [PVal.pint rgb, PVal.pstr effect,
         PVal.pint (if effect = "smooth" then max 30 duration else duration)]
        callb rnd)
    else Except.ok (false, st)

/-- `XiaomiBulb.set_hsv`. -/
def set_hsv (rnd : Nat) (st : XiaomiBulb) (hue sat : Int) (effect : String)
    (duration : Int) (callb : Option Nat) : Except Unit (Bool × XiaomiBulb) :=
  match st.properties.lookup "power" with
  | none => Except.error ()
  | some p =>
    if p = PVal.pstr "on" ∧ pyIn "set_hsv" st.support then
      Except.ok (true, send_msg st "set_hsv"
        [PVal.pint hue, PVal.pint sat, PVal.pstr effect,
         PVal.pint (if effect = "smooth" then max 30 duration else duration)]
        callb rnd)
    else Except.ok (false, st)

/-- `XiaomiBulb.toggle`. -/
def toggle (rnd : Nat) (st : XiaomiBulb) (callb : Option Nat) :
    Except Unit (Bool × XiaomiBulb) :=
  if pyIn "toggle" st.support then
    Except.ok (true, send_msg st "toggle" [] callb rnd)
  else Except.ok (false, st)

/-- `XiaomiBulb.dev_toggle`: both the capability check and the dispatched
method are `"bg_toggle"` in the source, not `"dev_toggle"`. -/
def dev_toggle (rnd : Nat) (st : XiaomiBulb) (callb : Option Nat) :
    Except Unit (Bool × XiaomiBulb) :=
  if pyIn "bg_toggle" st.support then
    Except.ok (true, send_msg st "bg_toggle" [] callb rnd)
  else Except.ok (false, st)

/-- `XiaomiBulb.set_name`: the capability check is `"set" in support`
while the dispatched command is `"set_name"`. -/
def set_name (rnd : Nat) (st : XiaomiBulb) (name : String)
    (callb : Option Nat) : Except Unit (Bool × XiaomiBulb) :=
  if pyIn "set" st.support then
    Except.ok (true, send_msg st "set_name" [PVal.pstr name] callb rnd)
  else Except.ok (false, st)

/-- `XiaomiBulb.start_flow`: power-gated on `"start_cf"`; the end-state
keyword is translated with `list.index`, a `ValueError` when invalid. -/
def start_flow (rnd : Nat) (st : XiaomiBulb) (count : Int)
    (endstate : String) (flex : List Int) (callb : Option Nat) :
    Except Unit (Bool × XiaomiBulb) :=
  match st.properties.lookup "power" with
  | none => Except.error ()
  | some p =>
    if p = PVal.pstr "on" ∧ pyIn "start_cf" st.support then
      match pyIndex ["start", "stop", "off"] endstate.toLower with
      | Except.ok i =>
        Except.ok (true, send_msg st "start_cf"
          [PVal.pint count, PVal.pint (Int.ofNat i),
           PVal.pstr (joinComma flex)] callb rnd)
      | Except.error e => Except.error e
    else Except.ok (false, st)

/-- `XiaomiBulb.cron_add`: power-gated on `"cron_add"`. -/
def cron_add (rnd : Nat) (st : XiaomiBulb) (action : String) (delay : Int)
    (callb : Option Nat) : Except Unit (Bool × XiaomiBulb) :=
  match st.properties.lookup "power" with
  | none => Except.error ()
  | some p =>
    if p = PVal.pstr "on" ∧ pyIn "cron_add" st.support then
      match pyIndex ["off", "on"] action.toLower with
      | Except.ok i =>
        Except.ok (true, send_msg st "cron_add"
          [PVal.pint (Int.ofNat i), PVal.pint delay] callb rnd)
      | Except.error e => Except.error e
    else Except.ok (false, st)

/-- `XiaomiBulb.cleanup`: the source iterates `self.tranports` — a
misspelling of `transports`, an attribute that never exists on the
object — so the method unconditionally raises `AttributeError` before
closing anything.  `Except.ok` would carry the list of closed
connection ids; it is unreachable. -/
def cleanup (_st : XiaomiBulb) : Except Unit (List Nat) :=
  Except.error ()

/-- A decoded inbound JSON line as `data_received` sees it after
`json.loads`: the optional `id` (already int-converted), `method`,
`params` and `result` members. -/
structure Reply where
  rid : Option Nat
  rmethod : Option String
  rparams : Option (List (String × PVal))
  rresult : Option (List String)
deriving DecidableEq, Repr

/-- What a Python callback is invoked with. -/
inductive CbPayload
  | rep (r : Reply)
  | pars (ps : List (String × PVal))
deriving DecidableEq, Repr

/-- The `"props"` notification merge: copy every parameter whose name is
in the `PROPERTIES` allow-list into the attribute map. -/
def updateProps (props ps : List (String × PVal)) : List (String × PVal) :=
  ps.foldl
    (fun acc kv =>
      if PROPERTIES.contains kv.1 then dictInsert kv.1 kv.2 acc else acc)
    props

/-- `XiaomiBulb.data_received` (on one parsed line).  Returns the new
state and the callback invocations, in order.  The whole body runs under
`try/except: pass`; a missing `"params"` member aborts the method branch
(`KeyError` swallowed) after the id branch has already taken effect. -/
def data_received (st : XiaomiBulb) (r : Reply) :
    XiaomiBulb × List (Nat × CbPayload) :=
  let idstep : XiaomiBulb × List (Nat × CbPayload) :=
    match r.rid with
    | some cid =>
      match st.pending_reply.lookup cid with
      | some pe =>
        ({ st with pending_reply := dictErase cid st.pending_reply },
         match pe.2 with
         | some t => [(t, CbPayload.rep r)]
         | none => [])
      | none => (st, [])
    | none => (st, [])
  match r.rmethod with
  | some m =>
    match r.rparams with
    | some ps =>
      let st2 :=
        if m = "props" then
          { idstep.1 with properties := updateProps idstep.1.properties ps }
        else idstep.1
      (st2, idstep.2 ++ [(st.default_cb, CbPayload.pars ps)])
    | none => idstep
  | none => idstep

/-- Observable actions of the drain loop `try_sending`. -/
inductive Ev
  | wr (conn : Nat) (m : Msg)
  | cbFail (tok : Nat)
  | mwr (m : Msg)
  | cbOk (tok : Nat) (mid : Nat)
deriving DecidableEq, Repr

/-- Outcome of the retry loop for one queue entry. -/
inductive AttOut
  | crash
  | replied
  | failCont
  | failStop
deriving DecidableEq, Repr

/-- The inner `while attempts < max_attempts` loop of `try_sending` for
one dequeued `(callb, msg)` entry.  `envf k` tells whether the `k`-th
`wait_for(event.wait(), …)` of this drain run sees a reply before the
timeout; `fuel` is the number of attempts still allowed.  `AttOut.crash`
marks an uncaught `ZeroDivisionError` (`% len(transports)` on an empty
list) or `IndexError` (`transports[myidx]` out of range) that kills the
drain task. -/
def attemptsGo (envf : Nat → Bool) (msg : Msg) (callb : Option Nat) :
    Nat → Nat → XiaomiBulb → XiaomiBulb × List Ev × Nat × AttOut
  | 0, k, st => (st, [], k, AttOut.failCont)
  | fuel + 1, k, st =>
    let st1 := { st with
      pending_reply := dictInsert msg.id (true, callb) st.pending_reply }
    if st1.transports.length = 0 then (st1, [], k, AttOut.crash)
    else
      let myidx := st1.tidx
      let st2 := { st1 with tidx := (st1.tidx + 1) % st1.transports.length }
      match st2.transports.get? myidx with
      | none => (st2, [], k, AttOut.crash)
      | some conn =>
        let ev := Ev.wr conn msg
        if envf k then (st2, [ev], k + 1, AttOut.replied)
        else
          if fuel = 0 then
            let f :
                XiaomiBulb × List Ev :=
              match st2.pending_reply.lookup msg.id with
              | some pe =>
                ({ st2 with pending_reply := dictErase msg.id st2.pending_reply },
                 match pe.2 with
                 | some t => [Ev.cbFail t]
                 | none => [])
              | none => (st2, [])
            let st4 := unregister f.1 conn
            if st4.transports.length = 0 then
              ({ st4 with is_sending := false }, ev :: f.2, k + 1,
               AttOut.failStop)
            else (st4, ev :: f.2, k + 1, AttOut.failCont)
          else
            let r := attemptsGo envf msg callb fuel (k + 1) st2
            (r.1, ev :: r.2.1, r.2.2.1, r.2.2.2)

/-- The outer `while not self.message_queue.empty()` loop of
`try_sending`, for the entries of `q` (kept in sync with
`st.message_queue`).  With `musicm` active, entries are written straight
to the stream connection and acknowledged with a synthesised
`\x7b"id": .., "result": ["ok"]\x7d`.  The final `Bool` is `true` when the
drain task died on an uncaught exception (leaving `is_sending` stuck). -/
def drainGo (envf : Nat → Bool) (maxA : Nat) :
    List (Option Nat × Msg) → Nat → XiaomiBulb →
    XiaomiBulb × List Ev × Nat × Bool
  | [], k, st => ({ st with message_queue := [], is_sending := false }, [], k, false)
  | (callb, msg) :: rest, k, st =>
    let st0 := { st with message_queue := rest }
    if st0.musicm then
      let evs := Ev.mwr msg ::
        (match callb with
         | some t => [Ev.cbOk t msg.id]
         | none => [])
      let r := drainGo envf maxA rest k st0
      (r.1, evs ++ r.2.1, r.2.2.1, r.2.2.2)
    else
      let a := attemptsGo envf msg callb maxA k st0
      match a.2.2.2 with
      | AttOut.crash => (a.1, a.2.1, a.2.2.1, true)
      | AttOut.failStop => (a.1, a.2.1, a.2.2.1, false)
      | _ =>
        let r := drainGo envf maxA rest a.2.2.1 a.1
        (r.1, a.2.1 ++ r.2.1, r.2.2.1, r.2.2.2)

/-- `try_sending` as a whole: drain the current queue. -/
def try_sending (envf : Nat → Bool) (maxA : Nat) (st : XiaomiBulb) :
    XiaomiBulb × List Ev × Nat × Bool :=
  drainGo envf maxA st.message_queue 0 st

/-- The connections written to, in order, from a drain event trace. -/
def connSeq (evs : List Ev) : List Nat :=
  evs.filterMap (fun e =>
    match e with
    | Ev.wr c _ => some c
    | _ => none)

/-- `bytes.decode("ascii")`: succeeds exactly when every byte is below
128.  The text is kept as the list of code points. -/
def pyDecodeAscii (data : List Nat) : Option (List Nat) :=
  if data.all (fun b => b < 128) then some data else none

/-- Splitting the decoded text on `"\r\n"` (`str.split`), at the byte
level (13, 10). -/
def splitCRLF : List Nat → List (List Nat)
  | [] => [[]]
  | 13 :: 10 :: rest => [] :: splitCRLF rest
  | b :: rest =>
    match splitCRLF rest with
    | [] => [[b]]
    | h :: t => (b :: h) :: t

/-- `line.split(":", 1)`: the part before the first colon (byte 58) and
the rest; `none` when the line has no colon (in the source the two-name
unpacking then raises `ValueError`, swallowed by the per-line
`except`). -/
def splitFirstColon : List Nat → Option (List Nat × List Nat)
  | [] => none
  | b :: rest =>
    if b = 58 then some ([], rest)
    else (splitFirstColon rest).map (fun p => (b :: p.1, p.2))

/-- ASCII `str.lower`. -/
def lowerB (l : List Nat) : List Nat :=
  l.map (fun b => if 65 ≤ b ∧ b ≤ 90 then b + 32 else b)

/-- Python whitespace bytes stripped by `str.strip()`. -/
def PY_WS : List Nat := [32, 9, 10, 13, 11, 12]

/-- `str.strip()`. -/
def stripB (l : List Nat) : List Nat :=
  ((l.dropWhile (fun b => PY_WS.contains b)).reverse.dropWhile
    (fun b => PY_WS.contains b)).reverse

/-- One header line: lower-cased name, stripped value. -/
def parseHeaderLine (line : List Nat) : Option (List Nat × List Nat) :=
  (splitFirstColon line).map (fun p => (lowerB p.1, stripB p.2))

/-- Accumulate one line into the headers dictionary; colon-free lines are
skipped. -/
def addHeader (hs : List (List Nat × List Nat)) (line : List Nat) :
    List (List Nat × List Nat) :=
  match parseHeaderLine line with
  | some kv => dictInsert kv.1 kv.2 hs
  | none => hs

/-- `XiaomiUPnP.datagram_received`: decode as ASCII (the decode sits
outside every `try`, so an undecodable datagram raises
`UnicodeDecodeError` out of the protocol callback), split the text on
CRLF, and fold the lines into the headers map that is handed to the
registered handler. -/
def datagram_received (data : List Nat) :
    Except Unit (List (List Nat × List Nat)) :=
  match pyDecodeAscii data with
  | some s => Except.ok ((splitCRLF s).foldl addHeader [])
  | none => Except.error ()

/-- A registered single-connection session with power on, used to
instantiate theorems on concrete inputs. -/
def bulbA : XiaomiBulb :=
  { support := "set_bright"
    properties := [("power", PVal.pstr "on")]
    seq := 0
    pending_reply := []
    tnb := 1
    transports := [0]
    tidx := 0
    musicm := false
    registered := true
    message_queue := []
    queue_limit := 0
    queue_policy := "drop"
    is_sending := false
    default_cb := 0 }

/-- A session whose `power` attribute was never populated. -/
def bulbNP : XiaomiBulb :=
  { bulbA with support := "set_ct_abx", properties := [] }

/-- A session advertising several capabilities, power on. -/
def bulbC1 : XiaomiBulb :=
  { bulbA with
    support := "set_power toggle bg_toggle set_bright set_ct_abx set_rgb set_hsv" }

/-- A session whose `power` attribute is `"off"`. -/
def bulbOff : XiaomiBulb :=
  { bulbA with
    support := "set_ct_abx set_rgb set_hsv set_bright start_cf cron_add"
    properties := [("power", PVal.pstr "off")] }

/-- A session with a full one-entry queue under the `"random"` policy. -/
def bulbC4 : XiaomiBulb :=
  { bulbA with
    support := ""
    message_queue := [(none, ⟨"m0", [], 42⟩)]
    queue_limit := 1
    queue_policy := "random" }

/-- Same full queue under the `"head"` policy. -/
def bulbC4h : XiaomiBulb :=
  { bulbC4 with queue_policy := "head" }

/-- Same full queue under the `"drop"` policy. -/
def bulbC4d : XiaomiBulb :=
  { bulbC4 with queue_policy := "drop" }

/-- A session with one pending command, id 7, callback token 3. -/
def bulbC2 : XiaomiBulb :=
  { bulbA with pending_reply := [(7, (true, some 3))] }

/-- The reply envelope for id 7 with payload `["ok"]`. -/
def replyC2 : Reply :=
  ⟨some 7, none, none, some ["ok"]⟩

/-- A session with one connection (id 10) and one queued command. -/
def bulbC3 : XiaomiBulb :=
  { bulbA with transports := [10], message_queue := [(some 4, ⟨"get_prop", [], 7⟩)] }

/-- A session with two connections (ids 11, 22) and two queued
commands. -/
def bulbC3x : XiaomiBulb :=
  { bulbA with
    transports := [11, 22]
    message_queue := [(some 1, ⟨"get_prop", [], 7⟩), (some 2, ⟨"toggle", [], 8⟩)] }

/-- A session whose round-robin index is stale: one connection left but
`tidx = 1`, the state reached after a timeout unregistered the first of
two connections. -/
def bulbStale : XiaomiBulb :=
  { bulbA with transports := [22], tidx := 1 }

/-- A session with two connections and two queued commands. -/
def bulbC8 : XiaomiBulb :=
  { bulbA with
    transports := [10, 20]
    message_queue := [(some 1, ⟨"get_prop", [], 7⟩), (some 2, ⟨"toggle", [], 8⟩)] }

theorem send_msg_queue0 (st : XiaomiBulb) (h : st.queue_limit = 0)
    (method : String) (params : List PVal) (callb : Option Nat) (rnd : Nat) :
    send_msg st method params callb rnd = enqueued st method params callb := by
  cases st with
  | mk sup props seq pend tnb ts tidx mus reg q ql qp snd dcb =>
    simp only [send_msg, seq_next, enqueued] at *
    subst h
    simp only [if_pos (Or.inl rfl)]
    cases snd <;> simp

theorem register_transports (st : XiaomiBulb) (conn : Nat) :
    (register st conn).transports = st.transports ++ [conn] := by
  cases h : st.registered <;> simp [register, h]

theorem foldl_register_length (l : List Nat) (st : XiaomiBulb) :
    ((l.foldl (fun s _ => register s s.transports.length) st).transports).length
      = st.transports.length + l.length := by
  induction l generalizing st with
  | nil => simp
  | cons a t ih =>
    simp only [List.foldl_cons, ih, List.length_cons]
    rw [register_transports]
    simp
    omega

theorem activate_transports_length (st : XiaomiBulb) :
    (activate st).transports.length = st.transports.length + st.tnb := by
  unfold activate
  rw [foldl_register_length]
  simp

/-- Claim C9: the spec says `cleanup` closes every connection in the
session's connection list and does not raise.  The source iterates the
misspelled attribute `self.tranports`, so the call raises
`AttributeError` on every session state and closes no connection at
all. -/
theorem claim_C9_cleanup_raises (st : XiaomiBulb) :
    cleanup st = Except.error () := rfl

/-- Claim C10 (amended): for `n ≥ 1`, `trim` keeps exactly the
`min(n, length q)` most recent entries of `q`, in order (they form a
suffix of `q`); `trim q 0`, however, leaves the queue unchanged (the
Python slice `[0-0:]` is the whole list), not empty. -/
theorem claim_C10_trim :
    (∀ (α : Type) (q : List α) (n : Nat), 1 ≤ n →
      trim q n = q.drop (q.length - n) ∧
      (trim q n).length = min n q.length ∧
      q = q.take (q.length - n) ++ trim q n) ∧
    (∀ (α : Type) (q : List α), trim q 0 = q) := by
  constructor
  · intro α q n hn
    have h0 : ¬ n = 0 := by omega
    refine ⟨by simp [trim, h0], ?_, ?_⟩
    · simp only [trim, if_neg h0, List.length_drop]
      omega
    · simp [trim, h0]
  · intro α q
    simp [trim]

theorem claim_C10_witness :
    trim ([5, 6, 7] : List Nat) 2 = [5, 6, 7].drop ([5, 6, 7].length - 2) ∧
    (trim ([5, 6, 7] : List Nat) 2).length = min 2 [5, 6, 7].length ∧
    ([5, 6, 7] : List Nat) =
      [5, 6, 7].take ([5, 6, 7].length - 2) ++ trim [5, 6, 7] 2 :=
  claim_C10_trim.1 Nat [5, 6, 7] 2 (by decide)

/-- Claim C10 counterexample: `trim q 0` does not empty the queue — on
the one-entry queue `[5]` it keeps the entry. -/
theorem claim_C10_counterexample :
    trim ([5] : List Nat) 0 ≠ [] ∧ trim ([5] : List Nat) 0 = [5] := by
  constructor <;> decide

/-- Claim C5 (amended): the `min(4, max(1, n))` clamp applies only to the
construction-time connection count: `__init__` stores the clamped value
and activating a freshly constructed session opens that many (≤ 4)
connections.  `set_connections`, by contrast, stores its argument
unclamped, and activation opens exactly `tnb` connections, so a
pre-activation `set_connections n` with `n > 4` yields more than 4. -/
theorem claim_C5_connection_clamp :
    (∀ (sup : String) (props : List (String × PVal)) (n : Nat),
      (xiaomiInit sup props n).tnb = min 4 (max 1 n) ∧
      (activate (xiaomiInit sup props n)).transports.length = min 4 (max 1 n) ∧
      (activate (xiaomiInit sup props n)).transports.length ≤ 4) ∧
    (∀ (st : XiaomiBulb) (n : Nat), (set_connections st n).tnb = n) ∧
    (∀ st : XiaomiBulb,
      (activate st).transports.length = st.transports.length + st.tnb) := by
  refine ⟨fun sup props n => ?_, fun st n => rfl, activate_transports_length⟩
  have hc : max 1 (min 4 n) = min 4 (max 1 n) := by omega
  have h1 : (xiaomiInit sup props n).transports.length = 0 := rfl
  have h2 : (xiaomiInit sup props n).tnb = max 1 (min 4 n) := rfl
  refine ⟨by rw [h2, hc], ?_, ?_⟩
  · rw [activate_transports_length, h1, h2]
    omega
  · rw [activate_transports_length, h1, h2]
    omega

/-- Claim C5 counterexample: `set_connections 7` before activation makes
the session open 7 connections — the connection list exceeds 4. -/
theorem claim_C5_counterexample :
    (activate (set_connections (xiaomiInit "" [] 1) 7)).transports.length = 7 ∧
    4 < (activate (set_connections (xiaomiInit "" [] 1) 7)).transports.length := by
  constructor <;> decide


theorem lookup_dictErase_self {ν : Type} (k : Nat) (d : List (Nat × ν)) :
    (dictErase k d).lookup k = none := by
  induction d with
  | nil => rfl
  | cons p t ih =>
    rcases p with ⟨a, v⟩
    by_cases h : a = k
    · subst h
      have he : dictErase a ((a, v) :: t) = dictErase a t := by
        simp [dictErase]
      rw [he]
      exact ih
    · have he : dictErase k ((a, v) :: t) = (a, v) :: dictErase k t := by
        simp [dictErase, h]
      have hka : (k == a) = false := beq_eq_false_iff_ne.2 (Ne.symm h)
      rw [he]
      simp only [List.lookup, hka]
      exact ih

/-- Claim C4 (amended): with `queue_limit = N > 0` and a full queue,
`drop` leaves the state untouched (the new command and its callback are
silently discarded), `head` admits the new command and evicts the oldest,
leaving `N` entries, and `random` evicts the entry at the drawn index
among the `N + 1` entries — possibly the newly admitted command itself —
leaving `N` entries. -/
theorem claim_C4_queue_policies :
    ∀ (st : XiaomiBulb) (method : String) (params : List PVal)
      (cb : Option Nat) (rnd : Nat) (N : Nat),
      st.queue_limit = N → 0 < N → st.message_queue.length = N →
      ((st.queue_policy = "drop" → send_msg st method params cb rnd = st) ∧
       (st.queue_policy = "head" →
          (send_msg st method params cb rnd).message_queue =
            st.message_queue.tail ++
              [(cb, ⟨method, params, (st.seq + 1) % 256⟩)] ∧
          (send_msg st method params cb rnd).message_queue.length = N) ∧
       (st.queue_policy = "random" → rnd < N + 1 →
          (send_msg st method params cb rnd).message_queue =
            (st.message_queue ++
              [(cb, (⟨method, params, (st.seq + 1) % 256⟩ : Msg))]).eraseIdx rnd ∧
          (send_msg st method params cb rnd).message_queue.length = N)) := by
  intro st method params cb rnd N hL hN hq
  have hfull : ¬ (st.queue_limit = 0 ∨
      st.message_queue.length < st.queue_limit) := by
    rw [hL, hq]; omega
  refine ⟨fun hpol => ?_, fun hpol => ?_, fun hpol hrnd => ?_⟩
  · simp [send_msg, hfull, hpol]
  · have hne : st.queue_policy ≠ "drop" := by rw [hpol]; decide
    have hEq : (send_msg st method params cb rnd).message_queue =
        st.message_queue.tail ++
          [(cb, (⟨method, params, (st.seq + 1) % 256⟩ : Msg))] := by
      simp only [send_msg, if_neg hfull, if_pos hne, seq_next, hpol,
        if_pos rfl]
      rcases hq0 : st.message_queue with _ | ⟨a, t⟩
      · rw [hq0] at hq; simp at hq; omega
      · simp
    refine ⟨hEq, ?_⟩
    rw [hEq, List.length_append, List.length_tail, hq, List.length_singleton]
    omega
  · have hne : st.queue_policy ≠ "drop" := by rw [hpol]; decide
    have hnh : ¬ st.queue_policy = "head" := by rw [hpol]; decide
    have hna : ¬ st.queue_policy = "adapt" := by rw [hpol]; decide
    have hEq : (send_msg st method params cb rnd).message_queue =
        (st.message_queue ++
          [(cb, (⟨method, params, (st.seq + 1) % 256⟩ : Msg))]).eraseIdx rnd := by
      simp only [send_msg, if_neg hfull, if_pos hne, seq_next,
        if_neg hnh, if_neg hna]
    refine ⟨hEq, ?_⟩
    have hlen : rnd <
        (st.message_queue ++
          [(cb, (⟨method, params, (st.seq + 1) % 256⟩ : Msg))]).length := by
      rw [List.length_append, List.length_singleton, hq]
      omega
    have := List.length_eraseIdx_add_one hlen
    rw [hEq]
    rw [List.length_append, List.length_singleton, hq] at this
    omega

theorem claim_C4_witness :
    (send_msg bulbC4h "m1" [] (some 9) 0).message_queue =
      bulbC4h.message_queue.tail ++
        [(some 9, (⟨"m1", [], (bulbC4h.seq + 1) % 256⟩ : Msg))] ∧
    (send_msg bulbC4h "m1" [] (some 9) 0).message_queue.length = 1 :=
  (claim_C4_queue_policies bulbC4h "m1" [] (some 9) 0 1 rfl (by decide)
    rfl).2.1 rfl

/-- Claim C4 counterexample: with the queue at its limit under policy
`"random"` and the random draw landing on the just-appended index, the
new command itself is evicted: the queue afterwards equals the old queue,
so no existing entry was removed even though a command was submitted. -/
theorem claim_C4_counterexample :
    (send_msg bulbC4 "m1" [] (some 9) 1).message_queue =
      bulbC4.message_queue ∧
    (send_msg bulbC4 "m1" [] (some 9) 1).message_queue =
      [(none, (⟨"m0", [], 42⟩ : Msg))] := by
  constructor <;> rfl

/-- Claim C2: a reply whose id matches a pending command with a callback
fires that callback exactly once with the reply as payload and deletes
the id from the correlation table; delivering the same (method-free)
reply again invokes no callback and leaves the state unchanged. -/
theorem claim_C2_reply_correlation :
    ∀ (st : XiaomiBulb) (r : Reply) (cid tok : Nat) (ev : Bool),
      r.rid = some cid →
      r.rmethod = none →
      st.pending_reply.lookup cid = some (ev, some tok) →
      (data_received st r).2 = [(tok, CbPayload.rep r)] ∧
      (data_received st r).1.pending_reply.lookup cid = none ∧
      data_received (data_received st r).1 r = ((data_received st r).1, []) := by
  intro st r cid tok ev hid hm hpend
  have h1 : data_received st r =
      ({ st with pending_reply := dictErase cid st.pending_reply },
       [(tok, CbPayload.rep r)]) := by
    simp [data_received, hid, hm, hpend]
  have h2 : (data_received st r).1.pending_reply.lookup cid = none := by
    rw [h1]
    exact lookup_dictErase_self cid st.pending_reply
  refine ⟨by rw [h1], h2, ?_⟩
  rw [h1]
  simp [data_received, hid, hm, lookup_dictErase_self]

theorem claim_C2_witness :
    (data_received bulbC2 replyC2).2 = [(3, CbPayload.rep replyC2)] ∧
    (data_received bulbC2 replyC2).1.pending_reply.lookup 7 = none ∧
    data_received (data_received bulbC2 replyC2).1 replyC2 =
      ((data_received bulbC2 replyC2).1, []) :=
  claim_C2_reply_correlation bulbC2 replyC2 7 3 true rfl rfl rfl

theorem splitFirstColon_eq_none (l : List Nat) (h : 58 ∉ l) :
    splitFirstColon l = none := by
  induction l with
  | nil => rfl
  | cons b t ih =>
    have hb : ¬ b = 58 := fun hb => h (hb ▸ List.mem_cons_self b t)
    have ht : 58 ∉ t := fun hm => h (List.mem_cons_of_mem b hm)
    simp [splitFirstColon, hb, ih ht]

theorem addHeader_no_colon (hs : List (List Nat × List Nat))
    (bad : List Nat) (h : 58 ∉ bad) : addHeader hs bad = hs := by
  simp [addHeader, parseHeaderLine, splitFirstColon_eq_none bad h]

theorem lowerB_no_upper (l : List Nat) :
    ∀ b ∈ lowerB l, ¬ (65 ≤ b ∧ b ≤ 90) := by
  intro b hb
  rcases List.mem_map.1 hb with ⟨a, _, rfl⟩
  by_cases h : 65 ≤ a ∧ a ≤ 90
  · simp only [if_pos h]
    omega
  · simp only [if_neg h]
    exact h

theorem dictInsert_mem {κ ν : Type} [DecidableEq κ] (k : κ) (v : ν)
    (d : List (κ × ν)) :
    ∀ kv ∈ dictInsert k v d, kv ∈ d ∨ kv = (k, v) := by
  intro kv hkv
  unfold dictInsert at hkv
  by_cases h : d.any (fun p => p.1 == k)
  · rw [if_pos h] at hkv
    rcases List.mem_map.1 hkv with ⟨p, hp, rfl⟩
    by_cases hk : p.1 = k
    · right; simp [hk]
    · left; simpa [hk] using hp
  · rw [if_neg h] at hkv
    rcases List.mem_append.1 hkv with hin | hone
    · exact Or.inl hin
    · exact Or.inr (List.mem_singleton.1 hone)

theorem parseHeaderLine_key_lower (l : List Nat)
    (kv : List Nat × List Nat) (h : parseHeaderLine l = some kv) :
    ∀ b ∈ kv.1, ¬ (65 ≤ b ∧ b ≤ 90) := by
  unfold parseHeaderLine at h
  cases hs : splitFirstColon l with
  | none => rw [hs] at h; cases h
  | some p =>
    rw [hs] at h
    simp only [Option.map_some'] at h
    have hkv := Option.some.inj h
    subst hkv
    simpa using lowerB_no_upper p.1

theorem foldl_addHeader_keys_lower (ls : List (List Nat))
    (hs : List (List Nat × List Nat))
    (h : ∀ kv ∈ hs, ∀ b ∈ kv.1, ¬ (65 ≤ b ∧ b ≤ 90)) :
    ∀ kv ∈ ls.foldl addHeader hs, ∀ b ∈ kv.1, ¬ (65 ≤ b ∧ b ≤ 90) := by
  induction ls generalizing hs with
  | nil => exact h
  | cons l t ih =>
    simp only [List.foldl_cons]
    apply ih
    intro kv hkv
    unfold addHeader at hkv
    cases hp : parseHeaderLine l with
    | none => rw [hp] at hkv; exact h kv hkv
    | some kv' =>
      rw [hp] at hkv
      rcases dictInsert_mem kv'.1 kv'.2 hs kv hkv with hin | heq
      · exact h kv hin
      · intro b hb
        have hk : kv.1 = kv'.1 := by rw [heq]
        exact parseHeaderLine_key_lower l kv' hp b (hk ▸ hb)

/-- Claim C7 (amended): a discovery datagram whose bytes are all ASCII is
parsed without raising; inside it, every line lacking a colon separator
is silently skipped while the other lines still contribute to the map;
all keys of the produced attribute map are lower-cased.  A datagram that
cannot be decoded as ASCII, however, raises out of `datagram_received`
(the `decode` call sits outside every `try`), rather than being silently
dropped. -/
theorem claim_C7_datagram_parsing :
    (∀ data : List Nat, data.all (fun b => b < 128) = true →
        datagram_received data =
          Except.ok ((splitCRLF data).foldl addHeader [])) ∧
    (∀ (hs : List (List Nat × List Nat)) (l1 l2 : List (List Nat))
       (bad : List Nat), 58 ∉ bad →
        (l1 ++ bad :: l2).foldl addHeader hs =
          (l1 ++ l2).foldl addHeader hs) ∧
    (∀ (data : List Nat) (hs : List (List Nat × List Nat)),
        datagram_received data = Except.ok hs →
        ∀ kv ∈ hs, ∀ b ∈ kv.1, ¬ (65 ≤ b ∧ b ≤ 90)) := by
  refine ⟨fun data h => ?_, fun hs l1 l2 bad hbad => ?_, fun data hs h => ?_⟩
  · simp [datagram_received, pyDecodeAscii, h]
  · rw [List.foldl_append, List.foldl_append, List.foldl_cons,
      addHeader_no_colon _ bad hbad]
  · have hok : datagram_received data =
        Except.ok ((splitCRLF data).foldl addHeader []) := by
      unfold datagram_received pyDecodeAscii at h ⊢
      by_cases hd : data.all (fun b => b < 128) = true
      · simp [hd]
      · simp [hd] at h
    rw [hok] at h
    cases h
    exact foldl_addHeader_keys_lower (splitCRLF data) [] (by simp)

theorem claim_C7_witness :
    (datagram_received [72, 73, 58, 32, 65] =
      Except.ok ((splitCRLF [72, 73, 58, 32, 65]).foldl addHeader [])) ∧
    ([[72, 58, 49]] ++ [120, 121] :: [[75, 58, 50]]).foldl addHeader [] =
      ([[72, 58, 49]] ++ [[75, 58, 50]]).foldl addHeader [] ∧
    (∀ kv ∈ ((splitCRLF [72, 73, 58, 32, 65]).foldl addHeader []),
      ∀ b ∈ kv.1, ¬ (65 ≤ b ∧ b ≤ 90)) :=
  ⟨claim_C7_datagram_parsing.1 [72, 73, 58, 32, 65] (by decide),
   claim_C7_datagram_parsing.2.1 [] [[72, 58, 49]] [[75, 58, 50]]
     [120, 121] (by decide),
   fun kv hkv => claim_C7_datagram_parsing.2.2 [72, 73, 58, 32, 65] _
     (claim_C7_datagram_parsing.1 [72, 73, 58, 32, 65] (by decide)) kv hkv⟩

/-- Claim C7 counterexample: the one-byte datagram `0xFF` cannot be
decoded as ASCII; `datagram_received` raises (`Except.error`) instead of
silently dropping it, so discovery processing is not exception-free on
arbitrary byte sequences. -/
theorem claim_C7_counterexample :
    datagram_received [255] = Except.error () := rfl

/-- Claim C1 (amended): with an unbounded queue and power registered as
`"on"`, every command method returns `Except.ok` and its boolean result
is exactly its hard-coded capability token occurring as a substring of
the support string — for `set_name` the token is `"set"` and for
`dev_toggle` it is `"bg_toggle"`, not the command's own name — and when
the result is `true`, the corresponding message is enqueued, except for
`set_brightness`, which enqueues only when the effect is `"smooth"`
(with any other effect it returns `true` having enqueued nothing). -/
theorem claim_C1_command_dispatch :
    ∀ (st : XiaomiBulb) (rnd : Nat) (cb : Option Nat),
      st.queue_limit = 0 →
      st.properties.lookup "power" = some (PVal.pstr "on") →
      ((∀ name, set_name rnd st name cb =
          Except.ok (pyIn "set" st.support,
            if pyIn "set" st.support then
              enqueued st "set_name" [PVal.pstr name] cb
            else st)) ∧
       (dev_toggle rnd st cb =
          Except.ok (pyIn "bg_toggle" st.support,
            if pyIn "bg_toggle" st.support then
              enqueued st "bg_toggle" [] cb
            else st)) ∧
       (toggle rnd st cb =
          Except.ok (pyIn "toggle" st.support,
            if pyIn "toggle" st.support then
              enqueued st "toggle" [] cb
            else st)) ∧
       (∀ power effect dur mode,
          set_power rnd st power effect dur mode cb =
            Except.ok (pyIn "set_power" st.support,
              if pyIn "set_power" st.support then
                enqueued st "set_power"
                  (if modeTruthy mode then
                    [PVal.pstr power, PVal.pstr effect,
                     PVal.pint (if effect = "smooth" then max 30 dur else dur),
                     PVal.pint (Int.ofNat (mode.getD 0))]
                   else
                    [PVal.pstr power, PVal.pstr effect,
                     PVal.pint (if effect = "smooth" then max 30 dur else dur)])
                  cb
              else st)) ∧
       (∀ b effect dur,
          set_brightness rnd st b effect dur cb =
            Except.ok (pyIn "set_bright" st.support,
              if pyIn "set_bright" st.support then
                (if effect = "smooth" then
                  enqueued st "set_bright"
                    [PVal.pint b, PVal.pstr effect, PVal.pint (max 30 dur)] cb
                 else st)
              else st)) ∧
       (∀ t effect dur,
          set_temperature rnd st t effect dur cb =
            Except.ok (pyIn "set_ct_abx" st.support,
              if pyIn "set_ct_abx" st.support then
                enqueued st "set_ct_abx"
                  [PVal.pint t, PVal.pstr effect,
                   PVal.pint (if effect = "smooth" then max 30 dur else dur)]
                  cb
              else st)) ∧
       (∀ r effect dur,
          set_rgb rnd st r effect dur cb =
            Except.ok (pyIn "set_rgb" st.support,
              if pyIn "set_rgb" st.support then
                enqueued (seq_next st).2 "set_rgb"
                  [PVal.pint r, PVal.pstr effect,
                   PVal.pint (if effect = "smooth" then max 30 dur else dur)]
                  cb
              else st)) ∧
       (∀ hue sat effect dur,
          set_hsv rnd st hue sat effect dur cb =
            Except.ok (pyIn "set_hsv" st.support,
              if pyIn "set_hsv" st.support then
                enqueued st "set_hsv"
                  [PVal.pint hue, PVal.pint sat, PVal.pstr effect,
                   PVal.pint (if effect = "smooth" then max 30 dur else dur)]
                  cb
              else st))) := by
  intro st rnd cb hq hp
  have hsm := send_msg_queue0 st hq
  have hsm2 := send_msg_queue0 (seq_next st).2 (by simpa [seq_next] using hq)
  refine ⟨fun name => ?_, ?_, ?_, fun power effect dur mode => ?_,
    fun b effect dur => ?_, fun t effect dur => ?_, fun r effect dur => ?_,
    fun hue sat effect dur => ?_⟩
  · cases g : pyIn "set" st.support <;> simp [set_name, g, hsm]
  · cases g : pyIn "bg_toggle" st.support <;> simp [dev_toggle, g, hsm]
  · cases g : pyIn "toggle" st.support <;> simp [toggle, g, hsm]
  · cases g : pyIn "set_power" st.support <;>
      cases m : modeTruthy mode <;>
        simp [set_power, g, m, hsm]
  · cases g : pyIn "set_bright" st.support <;>
      by_cases e : effect = "smooth" <;>
        simp [set_brightness, hp, g, e, hsm]
  · cases g : pyIn "set_ct_abx" st.support <;>
      simp [set_temperature, hp, g, hsm]
  · cases g : pyIn "set_rgb" st.support <;>
      simp [set_rgb, hp, g, hsm2]
  · cases g : pyIn "set_hsv" st.support <;>
      simp [set_hsv, hp, g, hsm]

theorem claim_C1_witness :
    set_name 0 bulbC1 "lamp" none =
      Except.ok (pyIn "set" bulbC1.support,
        if pyIn "set" bulbC1.support then
          enqueued bulbC1 "set_name" [PVal.pstr "lamp"] none
        else bulbC1) :=
  (claim_C1_command_dispatch bulbC1 0 none rfl rfl).1 "lamp"

/-- Claim C1 counterexample: on a session supporting exactly
`set_bright` with power on, `set_brightness` with the default
(non-smooth) effect returns `true` yet leaves the queue empty — nothing
was enqueued for dispatch.  Moreover `set_name` returns `true` (and
enqueues a `set_name` command) on that same session even though
`"set_name"` is not in the capability set, because the source only
checks the substring `"set"`. -/
theorem claim_C1_counterexample :
    (set_brightness 0 bulbA 50 "sudden" 100 (some 1) =
      Except.ok (true, bulbA)) ∧
    bulbA.message_queue = [] ∧
    (set_name 0 bulbA "x" (some 2) =
      Except.ok (true, enqueued bulbA "set_name" [PVal.pstr "x"] (some 2))) ∧
    pyIn "set_name" bulbA.support = false :=
  ⟨rfl, rfl, rfl, by decide⟩

/-- Claim C6 (amended): every power-gated command method returns `false`
and enqueues nothing when the registered `power` attribute is present
with any value other than `"on"`; but when the attribute was never
populated, the direct `self.properties["power"]` access raises
`KeyError` instead of returning `false` (nothing is enqueued either
way). -/
theorem claim_C6_power_gate :
    (∀ (st : XiaomiBulb) (rnd : Nat) (cb : Option Nat) (p : PVal),
      st.properties.lookup "power" = some p →
      p ≠ PVal.pstr "on" →
      ((∀ t effect dur, set_temperature rnd st t effect dur cb =
          Except.ok (false, st)) ∧
       (∀ r effect dur, set_rgb rnd st r effect dur cb =
          Except.ok (false, st)) ∧
       (∀ hue sat effect dur, set_hsv rnd st hue sat effect dur cb =
          Except.ok (false, st)) ∧
       (∀ b effect dur, set_brightness rnd st b effect dur cb =
          Except.ok (false, st)) ∧
       (∀ c endstate flex, start_flow rnd st c endstate flex cb =
          Except.ok (false, st)) ∧
       (∀ action delay, cron_add rnd st action delay cb =
          Except.ok (false, st)))) ∧
    (∀ (st : XiaomiBulb) (rnd : Nat) (cb : Option Nat),
      st.properties.lookup "power" = none →
      ((∀ t effect dur, set_temperature rnd st t effect dur cb =
          Except.error ()) ∧
       (∀ r effect dur, set_rgb rnd st r effect dur cb =
          Except.error ()) ∧
       (∀ hue sat effect dur, set_hsv rnd st hue sat effect dur cb =
          Except.error ()) ∧
       (∀ b effect dur, set_brightness rnd st b effect dur cb =
          Except.error ()) ∧
       (∀ c endstate flex, start_flow rnd st c endstate flex cb =
          Except.error ()) ∧
       (∀ action delay, cron_add rnd st action delay cb =
          Except.error ()))) := by
  constructor
  · intro st rnd cb p hp hne
    refine ⟨fun t effect dur => ?_, fun r effect dur => ?_,
      fun hue sat effect dur => ?_, fun b effect dur => ?_,
      fun c endstate flex => ?_, fun action delay => ?_⟩ <;>
      simp [set_temperature, set_rgb, set_hsv, set_brightness, start_flow,
        cron_add, hp, hne]
  · intro st rnd cb hp
    refine ⟨fun t effect dur => ?_, fun r effect dur => ?_,
      fun hue sat effect dur => ?_, fun b effect dur => ?_,
      fun c endstate flex => ?_, fun action delay => ?_⟩ <;>
      simp [set_temperature, set_rgb, set_hsv, set_brightness, start_flow,
        cron_add, hp]

theorem claim_C6_witness :
    set_temperature 0 bulbOff 4000 "sudden" 100 none =
      Except.ok (false, bulbOff) ∧
    cron_add 0 bulbNP "off" 5 none = Except.error () :=
  ⟨(claim_C6_power_gate.1 bulbOff 0 none (PVal.pstr "off") rfl
      (by decide)).1 4000 "sudden" 100,
   (claim_C6_power_gate.2 bulbNP 0 none rfl).2.2.2.2.2 "off" 5⟩

/-- Claim C6 counterexample: on a session supporting `set_ct_abx` whose
`power` attribute was never populated, `set_temperature` raises
(`KeyError` on `self.properties["power"]`) instead of returning
`False`. -/
theorem claim_C6_counterexample :
    set_temperature 0 bulbNP 4000 "sudden" 100 none = Except.error () := rfl

theorem lookup_map_overwrite {ν : Type} (k : Nat) (v : ν) :
    ∀ d : List (Nat × ν), d.any (fun p => p.1 == k) = true →
      (d.map (fun p => if p.1 = k then (k, v) else p)).lookup k = some v := by
  intro d
  induction d with
  | nil => intro h; simp at h
  | cons p t ih =>
    intro h
    obtain ⟨a, w⟩ := p
    by_cases hp : a = k
    · subst hp
      rw [List.map_cons, if_pos (show (a, w).1 = a from rfl)]
      simp [List.lookup]
    · have ht : t.any (fun p => p.1 == k) = true := by
        simpa [List.any_cons, hp] using h
      have hk : (k == a) = false := beq_eq_false_iff_ne.2 (Ne.symm hp)
      rw [List.map_cons, if_neg (show ¬ (a, w).1 = k from hp)]
      simp only [List.lookup, hk]
      exact ih ht

theorem lookup_append_new {ν : Type} (k : Nat) (v : ν) :
    ∀ d : List (Nat × ν), d.any (fun p => p.1 == k) = false →
      (d ++ [(k, v)]).lookup k = some v := by
  intro d
  induction d with
  | nil => intro _; simp [List.lookup]
  | cons p t ih =>
    intro h
    rw [List.any_cons, Bool.or_eq_false_iff] at h
    have hk : (k == p.1) = false := by
      rcases h with ⟨h1, _⟩
      have : ¬ p.1 = k := by
        intro he
        rw [he] at h1
        simp at h1
      exact beq_eq_false_iff_ne.2 (Ne.symm this)
    simp only [List.cons_append, List.lookup, hk]
    exact ih h.2

theorem lookup_dictInsert_self {ν : Type} (k : Nat) (v : ν)
    (d : List (Nat × ν)) : (dictInsert k v d).lookup k = some v := by
  unfold dictInsert
  cases h : d.any (fun p => p.1 == k)
  · rw [if_neg (by simp [h])]
    exact lookup_append_new k v d h
  · rw [if_pos (by simp [h])]
    exact lookup_map_overwrite k v d h

theorem unregister_fields (st : XiaomiBulb) (c : Nat) :
    (unregister st c).transports = st.transports.erase c ∧
    (unregister st c).pending_reply = st.pending_reply ∧
    (unregister st c).is_sending = st.is_sending ∧
    (unregister st c).message_queue = st.message_queue ∧
    (unregister st c).tidx = st.tidx := by
  simp only [unregister]
  split <;> simp

theorem unregister_registered_empty (st : XiaomiBulb) (c : Nat)
    (h : st.transports.erase c = []) :
    (unregister st c).registered = false := by
  simp only [unregister]
  cases hr : st.registered
  · rw [if_neg (by simp [hr])]
  · rw [if_pos (by simp [h, hr])]

theorem attemptsGo_last (envf : Nat → Bool) (msg : Msg) (tok k : Nat)
    (st : XiaomiBulb) (hlt : st.tidx < st.transports.length)
    (hf : envf k = false) :
    attemptsGo envf msg (some tok) 1 k st =
      (let c := st.transports.getD st.tidx 0
       let st3 : XiaomiBulb :=
         { st with
           pending_reply :=
             dictErase msg.id
               (dictInsert msg.id (true, some tok) st.pending_reply)
           tidx := (st.tidx + 1) % st.transports.length }
       let st4 := unregister st3 c
       if st4.transports.length = 0 then
         ({ st4 with is_sending := false },
          [Ev.wr c msg, Ev.cbFail tok], k + 1, AttOut.failStop)
       else (st4, [Ev.wr c msg, Ev.cbFail tok], k + 1, AttOut.failCont)) := by
  have hlen : ¬ st.transports.length = 0 := by omega
  have hget : st.transports.get? st.tidx =
      some (st.transports.getD st.tidx 0) := by
    rw [List.get?_eq_getElem?, List.getElem?_eq_getElem hlt,
      List.getD_eq_getElem st.transports 0 hlt]
  simp only [attemptsGo, hlen, if_false, hget, hf, Bool.false_eq_true,
    lookup_dictInsert_self, if_true, ite_false, ite_true]

theorem attemptsGo_step (envf : Nat → Bool) (msg : Msg) (cb : Option Nat)
    (n k : Nat) (st : XiaomiBulb)
    (hlt : st.tidx < st.transports.length) (hf : envf k = false)
    (hn : n ≠ 0) :
    attemptsGo envf msg cb (n + 1) k st =
      (let st2 : XiaomiBulb :=
         { st with
           pending_reply := dictInsert msg.id (true, cb) st.pending_reply
           tidx := (st.tidx + 1) % st.transports.length }
       let r := attemptsGo envf msg cb n (k + 1) st2
       (r.1, Ev.wr (st.transports.getD st.tidx 0) msg :: r.2.1,
        r.2.2.1, r.2.2.2)) := by
  have hlen : ¬ st.transports.length = 0 := by omega
  have hget : st.transports.get? st.tidx =
      some (st.transports.getD st.tidx 0) := by
    rw [List.get?_eq_getElem?, List.getElem?_eq_getElem hlt,
      List.getD_eq_getElem st.transports 0 hlt]
  simp only [attemptsGo, hlen, if_false, hget, hf, Bool.false_eq_true,
    hn, ite_false, ite_true]



theorem attemptsGo_last_stop (envf : Nat → Bool) (msg : Msg) (tok k : Nat)
    (st : XiaomiBulb) (hlt : st.tidx < st.transports.length)
    (hf : envf k = false)
    (hz : st.transports.erase (st.transports.getD st.tidx 0) = []) :
    attemptsGo envf msg (some tok) 1 k st =
      ({ st with
         pending_reply :=
           dictErase msg.id
             (dictInsert msg.id (true, some tok) st.pending_reply)
         tidx := (st.tidx + 1) % st.transports.length
         transports := []
         registered := false
         is_sending := false },
       [Ev.wr (st.transports.getD st.tidx 0) msg, Ev.cbFail tok], k + 1,
       AttOut.failStop) := by
  rw [attemptsGo_last envf msg tok k st hlt hf]
  have hmem : st.transports.getD st.tidx 0 ∈ st.transports := by
    rw [List.getD_eq_getElem st.transports 0 hlt]
    exact List.getElem_mem hlt
  have hlen1 : st.transports.length = 1 := by
    have h2 := List.length_erase_of_mem hmem
    rw [hz] at h2
    simp only [List.length_nil] at h2
    omega
  cases st with
  | mk sup props seq pend tnb ts tidx mus reg mq ql qp snd dcb =>
    cases reg <;> simp_all [unregister]

theorem attemptsGo_last_cont (envf : Nat → Bool) (msg : Msg) (tok k : Nat)
    (st : XiaomiBulb) (hlt : st.tidx < st.transports.length)
    (hf : envf k = false)
    (hz : ¬ st.transports.erase (st.transports.getD st.tidx 0) = []) :
    attemptsGo envf msg (some tok) 1 k st =
      ({ st with
         pending_reply :=
           dictErase msg.id
             (dictInsert msg.id (true, some tok) st.pending_reply)
         tidx := (st.tidx + 1) % st.transports.length
         transports :=
           st.transports.erase (st.transports.getD st.tidx 0) },
       [Ev.wr (st.transports.getD st.tidx 0) msg, Ev.cbFail tok], k + 1,
       AttOut.failCont) := by
  rw [attemptsGo_last envf msg tok k st hlt hf]
  have hlz : ¬ (st.transports.erase
      (st.transports.getD st.tidx 0)).length = 0 := by
    intro h
    exact hz (List.length_eq_zero.1 h)
  cases st with
  | mk sup props seq pend tnb ts tidx mus reg mq ql qp snd dcb =>
    simp_all [unregister]

theorem attempts_noreply (msg : Msg) (tok : Nat) :
    ∀ (m : Nat), 1 ≤ m → ∀ (k : Nat) (st : XiaomiBulb),
      st.tidx < st.transports.length →
      ((attemptsGo (fun _ => false) msg (some tok) m k st).2.2.1 = k + m ∧
       (attemptsGo (fun _ => false) msg (some tok) m k st).2.1 =
         (List.range m).map (fun i =>
           Ev.wr
             (st.transports.getD ((st.tidx + i) % st.transports.length) 0)
             msg) ++ [Ev.cbFail tok] ∧
       ((attemptsGo (fun _ => false) msg (some tok) m k
           st).1.pending_reply.lookup msg.id = none) ∧
       (attemptsGo (fun _ => false) msg (some tok) m k st).1.transports =
         st.transports.erase
           (st.transports.getD
             ((st.tidx + (m - 1)) % st.transports.length) 0) ∧
       (attemptsGo (fun _ => false) msg (some tok) m k st).1.message_queue =
         st.message_queue ∧
       (st.transports.length = 1 →
         (attemptsGo (fun _ => false) msg (some tok) m k st).1.transports = []
           ∧ (attemptsGo (fun _ => false) msg (some tok) m k
               st).1.registered = false
           ∧ (attemptsGo (fun _ => false) msg (some tok) m k
               st).1.is_sending = false
           ∧ (attemptsGo (fun _ => false) msg (some tok) m k st).2.2.2 =
             AttOut.failStop) ∧
       (1 < st.transports.length →
         (attemptsGo (fun _ => false) msg (some tok) m k st).2.2.2 =
           AttOut.failCont)) := by
  intro m
  induction m with
  | zero => intro h; omega
  | succ n ih =>
    intro _ k st hlt
    have hlen0 : 0 < st.transports.length := by omega
    have hm' : st.tidx % st.transports.length = st.tidx :=
      Nat.mod_eq_of_lt hlt
    have hmem : st.transports.getD st.tidx 0 ∈ st.transports := by
      rw [List.getD_eq_getElem st.transports 0 hlt]
      exact List.getElem_mem hlt
    have herase :
        (st.transports.erase (st.transports.getD st.tidx 0)).length =
          st.transports.length - 1 :=
      List.length_erase_of_mem hmem
    have hidx0 : (st.tidx + (1 - 1)) % st.transports.length = st.tidx := by
      simpa using hm'
    by_cases hn : n = 0
    · subst hn
      by_cases h1 : st.transports.length = 1
      · have hz : st.transports.erase (st.transports.getD st.tidx 0) = [] :=
          List.length_eq_zero.1 (by omega)
        rw [attemptsGo_last_stop (fun _ => false) msg tok k st hlt rfl hz]
        refine ⟨rfl, ?_, ?_, ?_, rfl, fun _ => ⟨rfl, rfl, rfl, rfl⟩,
          fun hgt => absurd h1 (by omega)⟩
        · simp only [show List.range 1 = [0] from rfl, List.map_cons,
            List.map_nil, List.singleton_append, Nat.add_zero, hm']
        · exact lookup_dictErase_self msg.id _
        · rw [hidx0]
          exact hz.symm
      · have hz : ¬ st.transports.erase (st.transports.getD st.tidx 0)
            = [] := by
          intro hc
          rw [hc] at herase
          simp only [List.length_nil] at herase
          omega
        rw [attemptsGo_last_cont (fun _ => false) msg tok k st hlt rfl hz]
        refine ⟨rfl, ?_, ?_, ?_, rfl, fun h1' => absurd h1' h1,
          fun _ => rfl⟩
        · simp only [show List.range 1 = [0] from rfl, List.map_cons,
            List.map_nil, List.singleton_append, Nat.add_zero, hm']
        · exact lookup_dictErase_self msg.id _
        · rw [hidx0]
    · have hn1 : 1 ≤ n := by omega
      have hmodlt : (st.tidx + 1) % st.transports.length <
          st.transports.length := Nat.mod_lt _ hlen0
      have IH := ih hn1 (k + 1)
        { st with
          pending_reply := dictInsert msg.id (true, some tok) st.pending_reply
          tidx := (st.tidx + 1) % st.transports.length }
        (by simpa using hmodlt)
      rw [attemptsGo_step (fun _ => false) msg (some tok) n k st hlt rfl hn]
      simp only at IH
      obtain ⟨ihk, ihev, ihpend, ihtr, ihmq, ihone, ihmany⟩ := IH
      refine ⟨?_, ?_, ?_, ?_, ?_, ?_, ?_⟩
      · simp only [ihk]; omega
      · simp only [ihev]
        rw [List.range_succ_eq_map]
        simp only [List.map_cons, List.map_map, List.cons_append]
        congr 1
        · simp [hm']
        · congr 1
          apply List.map_congr_left
          intro i _
          simp only [Function.comp_apply]
          have hI : ((st.tidx + 1) % st.transports.length + i) %
              st.transports.length =
              (st.tidx + Nat.succ i) % st.transports.length := by
            rw [Nat.mod_add_mod]
            congr 1
            omega
          rw [hI]
      · exact ihpend
      · simp only [ihtr]
        have hI : ((st.tidx + 1) % st.transports.length + (n - 1)) %
            st.transports.length =
            (st.tidx + (n + 1 - 1)) % st.transports.length := by
          rw [Nat.mod_add_mod]
          congr 1
          omega
        rw [hI]
      · exact ihmq
      · intro h1
        exact ihone (by simpa using h1)
      · intro hgt
        exact ihmany (by simpa using hgt)

theorem drain_noreply_stop (msg : Msg) (tok : Nat) (m : Nat) (hm : 1 ≤ m)
    (st : XiaomiBulb) (c : Nat) (rest : List (Option Nat × Msg))
    (hmus : st.musicm = false) (hts : st.transports = [c])
    (htidx : st.tidx = 0)
    (hq : st.message_queue = (some tok, msg) :: rest) :
    (try_sending (fun _ => false) m st).2.1 =
        (List.range m).map (fun _ => Ev.wr c msg) ++ [Ev.cbFail tok] ∧
    (try_sending (fun _ => false) m st).1.transports = [] ∧
    (try_sending (fun _ => false) m st).1.registered = false ∧
    (try_sending (fun _ => false) m st).1.is_sending = false ∧
    (try_sending (fun _ => false) m st).1.message_queue = rest ∧
    (try_sending (fun _ => false) m st).2.2.2 = false := by
  have A := attempts_noreply msg tok m hm 0
    { st with message_queue := rest } (by simp [hts, htidx])
  obtain ⟨ak, aev, apend, atr, amq, aone, amany⟩ := A
  have hone := aone (by simp [hts])
  simp only [hmus] at ak aev apend atr amq hone
  unfold try_sending
  rw [hq]
  simp only [drainGo, hmus, Bool.false_eq_true, if_false, ite_false]
  rw [hone.2.2.2]
  refine ⟨?_, ?_, ?_, ?_, ?_, rfl⟩
  · rw [aev]
    congr 1
    apply List.map_congr_left
    intro i _
    simp [hts, htidx, Nat.mod_one]
  · exact hone.1
  · exact hone.2.1
  · exact hone.2.2.1
  · rw [amq]

theorem attemptsGo_stale_crash (envf : Nat → Bool) (msg : Msg)
    (cb : Option Nat) (m k : Nat) (st : XiaomiBulb)
    (hne : st.transports ≠ []) (hst : st.transports.length ≤ st.tidx) :
    attemptsGo envf msg cb (m + 1) k st =
      ({ st with
         pending_reply := dictInsert msg.id (true, cb) st.pending_reply
         tidx := (st.tidx + 1) % st.transports.length },
       [], k, AttOut.crash) := by
  have hlen : ¬ st.transports.length = 0 := by
    intro h
    exact hne (List.length_eq_zero.1 h)
  have hget : st.transports.get? st.tidx = none := by
    rw [List.get?_eq_getElem?]
    exact List.getElem?_eq_none hst
  simp only [attemptsGo, hlen, if_false, hget, ite_false]

/-- Claim C3 (amended): for a queued command whose replies never arrive,
processed while the round-robin index is within the connection list, the
retry loop of `try_sending` writes the command exactly `maxAttempts`
times (round-robin over the transports), then fires the command's
callback with the failure indication (`callb(None)`), deletes its id
from the correlation table, and unregisters the connection used for the
last attempt; on a single-connection session this unregisters the
session, clears `is_sending`, and the drain loop returns with the rest
of the queue abandoned.  The guarantee does not extend to every queued
command: once a timeout-unregistration has shrunk the pool, a command
facing a stale out-of-range index (third part) gets zero writes and no
failure callback, and its id is inserted into the correlation table and
leaked as the attempt dies on `IndexError`. -/
theorem claim_C3_retry_exhaustion :
    (∀ (msg : Msg) (tok m k : Nat) (st : XiaomiBulb),
      1 ≤ m → st.tidx < st.transports.length →
      ((attemptsGo (fun _ => false) msg (some tok) m k st).2.2.1 = k + m ∧
       (attemptsGo (fun _ => false) msg (some tok) m k st).2.1 =
         (List.range m).map (fun i =>
           Ev.wr
             (st.transports.getD ((st.tidx + i) % st.transports.length) 0)
             msg) ++ [Ev.cbFail tok] ∧
       ((attemptsGo (fun _ => false) msg (some tok) m k
           st).1.pending_reply.lookup msg.id = none) ∧
       (attemptsGo (fun _ => false) msg (some tok) m k st).1.transports =
         st.transports.erase
           (st.transports.getD
             ((st.tidx + (m - 1)) % st.transports.length) 0) ∧
       (attemptsGo (fun _ => false) msg (some tok) m k st).1.message_queue =
         st.message_queue ∧
       (st.transports.length = 1 →
         (attemptsGo (fun _ => false) msg (some tok) m k st).1.transports = []
           ∧ (attemptsGo (fun _ => false) msg (some tok) m k
               st).1.registered = false
           ∧ (attemptsGo (fun _ => false) msg (some tok) m k
               st).1.is_sending = false
           ∧ (attemptsGo (fun _ => false) msg (some tok) m k st).2.2.2 =
             AttOut.failStop) ∧
       (1 < st.transports.length →
         (attemptsGo (fun _ => false) msg (some tok) m k st).2.2.2 =
           AttOut.failCont))) ∧
    (∀ (msg : Msg) (tok m : Nat) (st : XiaomiBulb) (c : Nat)
       (rest : List (Option Nat × Msg)),
      1 ≤ m → st.musicm = false → st.transports = [c] → st.tidx = 0 →
      st.message_queue = (some tok, msg) :: rest →
      ((try_sending (fun _ => false) m st).2.1 =
          (List.range m).map (fun _ => Ev.wr c msg) ++ [Ev.cbFail tok] ∧
       (try_sending (fun _ => false) m st).1.transports = [] ∧
       (try_sending (fun _ => false) m st).1.registered = false ∧
       (try_sending (fun _ => false) m st).1.is_sending = false ∧
       (try_sending (fun _ => false) m st).1.message_queue = rest ∧
       (try_sending (fun _ => false) m st).2.2.2 = false)) ∧
    (∀ (msg : Msg) (cb : Option Nat) (m k : Nat) (st : XiaomiBulb),
      st.transports ≠ [] → st.transports.length ≤ st.tidx →
      attemptsGo (fun _ => false) msg cb (m + 1) k st =
        ({ st with
           pending_reply := dictInsert msg.id (true, cb) st.pending_reply
           tidx := (st.tidx + 1) % st.transports.length },
         [], k, AttOut.crash)) :=
  ⟨fun msg tok m k st hm hlt => attempts_noreply msg tok m hm k st hlt,
   fun msg tok m st c rest hm hmus hts htidx hq =>
     drain_noreply_stop msg tok m hm st c rest hmus hts htidx hq,
   fun msg cb m k st hne hst =>
     attemptsGo_stale_crash (fun _ => false) msg cb m k st hne hst⟩

theorem claim_C3_witness :
    ((try_sending (fun _ => false) 2 bulbC3).2.1 =
      (List.range 2).map (fun _ => Ev.wr 10 (⟨"get_prop", [], 7⟩ : Msg)) ++
        [Ev.cbFail 4] ∧
    (try_sending (fun _ => false) 2 bulbC3).1.transports = [] ∧
    (try_sending (fun _ => false) 2 bulbC3).1.registered = false ∧
    (try_sending (fun _ => false) 2 bulbC3).1.is_sending = false ∧
    (try_sending (fun _ => false) 2 bulbC3).1.message_queue = [] ∧
    (try_sending (fun _ => false) 2 bulbC3).2.2.2 = false) ∧
    attemptsGo (fun _ => false) ⟨"toggle", [], 8⟩ (some 2) 1 0 bulbStale =
      ({ bulbStale with
         pending_reply :=
           dictInsert 8 (true, some 2) bulbStale.pending_reply
         tidx := (bulbStale.tidx + 1) % bulbStale.transports.length },
       [], 0, AttOut.crash) :=
  ⟨claim_C3_retry_exhaustion.2.1 ⟨"get_prop", [], 7⟩ 4 2 bulbC3 10 []
     (by decide) rfl rfl rfl rfl,
   claim_C3_retry_exhaustion.2.2 ⟨"toggle", [], 8⟩ (some 2) 0 0 bulbStale
     (by decide) (by decide)⟩

/-- Claim C3 counterexample: the claim as stated quantifies over every
queued command with no replies.  On a two-connection session with two
queued commands and the default `maxAttempts = 1`, the first command's
timeout unregisters connection 11 and leaves the round-robin index
stale; the second queued command (id 8, callback token 2) is then
written zero times — not `maxAttempts` times — its failure callback
never fires, and its id is left behind in the correlation table as the
drain task dies. -/
theorem claim_C3_counterexample :
    (try_sending (fun _ => false) 1 bulbC3x).2.1 =
      [Ev.wr 11 ⟨"get_prop", [], 7⟩, Ev.cbFail 1] ∧
    Ev.cbFail 2 ∉ (try_sending (fun _ => false) 1 bulbC3x).2.1 ∧
    (try_sending (fun _ => false) 1 bulbC3x).1.pending_reply.lookup 8 =
      some (true, some 2) ∧
    (try_sending (fun _ => false) 1 bulbC3x).2.2.2 = true := by
  refine ⟨?_, ?_, ?_, ?_⟩ <;> decide

theorem attemptsGo_replied (envf : Nat → Bool) (msg : Msg) (cb : Option Nat)
    (n k : Nat) (st : XiaomiBulb) (hlt : st.tidx < st.transports.length)
    (hf : envf k = true) :
    attemptsGo envf msg cb (n + 1) k st =
      ({ st with
         pending_reply := dictInsert msg.id (true, cb) st.pending_reply
         tidx := (st.tidx + 1) % st.transports.length },
       [Ev.wr (st.transports.getD st.tidx 0) msg], k + 1,
       AttOut.replied) := by
  have hlen : ¬ st.transports.length = 0 := by omega
  have hget : st.transports.get? st.tidx =
      some (st.transports.getD st.tidx 0) := by
    rw [List.get?_eq_getElem?, List.getElem?_eq_getElem hlt,
      List.getD_eq_getElem st.transports 0 hlt]
  simp only [attemptsGo, hlen, if_false, hget, hf, ite_true, if_true]

theorem connSeq_append (a b : List Ev) :
    connSeq (a ++ b) = connSeq a ++ connSeq b := by
  unfold connSeq
  exact List.filterMap_append a b _

theorem drain_allreplies (maxA : Nat) (hA : 1 ≤ maxA) :
    ∀ (q : List (Option Nat × Msg)) (k : Nat) (st : XiaomiBulb),
      st.musicm = false → st.tidx < st.transports.length →
      (connSeq (drainGo (fun _ => true) maxA q k st).2.1 =
        (List.range q.length).map (fun i =>
          st.transports.getD ((st.tidx + i) % st.transports.length) 0) ∧
       (drainGo (fun _ => true) maxA q k st).2.2.2 = false) := by
  intro q
  induction q with
  | nil =>
    intro k st _ _
    exact ⟨rfl, rfl⟩
  | cons e rest ih =>
    intro k st hmus hlt
    obtain ⟨cb, msg⟩ := e
    have hlen0 : 0 < st.transports.length := by omega
    obtain ⟨mA, rfl⟩ : ∃ mA, maxA = mA + 1 :=
      ⟨maxA - 1, by omega⟩
    have hrep := attemptsGo_replied (fun _ => true) msg cb mA k
      { st with message_queue := rest } (by simpa using hlt) rfl
    have hmodlt : (st.tidx + 1) % st.transports.length <
        st.transports.length := Nat.mod_lt _ hlen0
    have IH := ih (k + 1)
      { st with
        pending_reply := dictInsert msg.id (true, cb) st.pending_reply
        tidx := (st.tidx + 1) % st.transports.length
        message_queue := rest }
      (by simpa using hmus) (by simpa using hmodlt)
    simp only [hmus] at hrep IH
    simp only [drainGo, hmus, Bool.false_eq_true, if_false, ite_false]
    rw [hrep]
    simp only at IH ⊢
    constructor
    · rw [connSeq_append]
      have hc1 : connSeq [Ev.wr (st.transports.getD st.tidx 0) msg] =
          [st.transports.getD st.tidx 0] := rfl
      rw [hc1, IH.1]
      simp only [List.length_cons, List.singleton_append]
      rw [List.range_succ_eq_map]
      simp only [List.map_cons, List.map_map]
      congr 1
      · simp [Nat.mod_eq_of_lt hlt]
      · apply List.map_congr_left
        intro i _
        simp only [Function.comp_apply, Nat.mod_add_mod]
        have hI : st.tidx + 1 + i = st.tidx + (i + 1) := by omega
        rw [hI]
    · exact IH.2

theorem map_range_mod_eq_rotate (ts : List Nat) (t : Nat)
    (hlt : t < ts.length) :
    (List.range ts.length).map (fun i => ts.getD ((t + i) % ts.length) 0) =
      ts.rotate t := by
  have hlen0 : 0 < ts.length := by omega
  apply List.ext_getElem
  · simp [List.length_rotate]
  · intro i h1 h2
    simp only [List.getElem_map, List.getElem_range]
    rw [List.getElem_rotate]
    rw [List.getD_eq_getElem ts 0 (Nat.mod_lt _ hlen0)]
    have hco : (t + i) % ts.length = (i + t) % ts.length := by
      rw [Nat.add_comm]
    simp only [hco]

/-- Claim C8 (amended): connection selection is round-robin.  When every
command is acknowledged on its first attempt, draining any queue writes
the connections in rotating order starting at `tidx`, and in particular
draining exactly `k` commands over `k` distinct connections writes each
connection exactly once.  (Under literally no replies the claim fails:
timed-out attempts unregister connections instead — see the
counterexample.) -/
theorem claim_C8_round_robin :
    (∀ (maxA : Nat) (q : List (Option Nat × Msg)) (k : Nat)
       (st : XiaomiBulb), 1 ≤ maxA → st.musicm = false →
       st.tidx < st.transports.length →
       connSeq (drainGo (fun _ => true) maxA q k st).2.1 =
         (List.range q.length).map (fun i =>
           st.transports.getD ((st.tidx + i) % st.transports.length) 0) ∧
       (drainGo (fun _ => true) maxA q k st).2.2.2 = false) ∧
    (∀ (maxA : Nat) (st : XiaomiBulb), 1 ≤ maxA → st.musicm = false →
       st.tidx < st.transports.length →
       st.message_queue.length = st.transports.length →
       st.transports.Nodup →
       ∀ c ∈ st.transports,
         (connSeq (try_sending (fun _ => true) maxA st).2.1).count c = 1) := by
  constructor
  · intro maxA q k st hA hmus hlt
    exact drain_allreplies maxA hA q k st hmus hlt
  · intro maxA st hA hmus hlt hq hnd c hc
    have h1 := (drain_allreplies maxA hA st.message_queue 0 st hmus hlt).1
    unfold try_sending
    rw [h1, hq, map_range_mod_eq_rotate st.transports st.tidx hlt]
    rw [List.Perm.count_eq (List.rotate_perm st.transports st.tidx)]
    exact List.count_eq_one_of_mem hnd hc

theorem claim_C8_witness :
    (connSeq (try_sending (fun _ => true) 1 bulbC8).2.1).count 10 = 1 ∧
    (connSeq (try_sending (fun _ => true) 1 bulbC8).2.1).count 20 = 1 :=
  ⟨claim_C8_round_robin.2 1 bulbC8 (by decide) rfl (by decide) (by decide)
      (by decide) 10 (by decide),
   claim_C8_round_robin.2 1 bulbC8 (by decide) rfl (by decide) (by decide)
      (by decide) 20 (by decide)⟩

/-- Claim C8 counterexample: with two open connections, two consecutive
commands and literally no replies (the claim's own scenario), the first
command times out on connection 10, which is then unregistered; the stale
round-robin index then points past the shrunk list and the drain task
dies on `IndexError`, so connection 20 is never written at all — not
"each connection exactly once". -/
theorem claim_C8_counterexample :
    connSeq (try_sending (fun _ => false) 1 bulbC8).2.1 = [10] ∧
    (connSeq (try_sending (fun _ => false) 1 bulbC8).2.1).count 20 = 0 ∧
    (try_sending (fun _ => false) 1 bulbC8).2.2.2 = true := by
  refine ⟨?_, ?_, ?_⟩ <;> decide
